import Mathlib

/-!
Verification of the petstore MCP bridge (`petstore_mcp/client.py` and
`petstore_mcp/server.py`) by shallow embedding.

JSON values are modelled by an inductive `Json`; Python-level dynamic
operations (truthiness, `str()` interpolation, `dict.get`, iteration,
`str.join`, `len`) are modelled by executable helpers that return
`Except String _` wherever Python could raise.  HTTP is abstracted by a
`Network` function from issued requests to outcomes; every client call
additionally returns the list of requests it issued, so that "no request
was made" and "the request body was exactly B" are provable.
-/

inductive Json where
  | null
  | bool (b : Bool)
  | num (n : Int)
  | str (s : String)
  | arr (elems : List Json)
  | obj (fields : List (String × Json))

/-- Python truthiness (`bool(x)`) on JSON-representable values. -/
def pyTruthy : Json → Bool
  | .null => false
  | .bool b => b
  | .num n => n != 0
  | .str s => s != ""
  | .arr xs => !xs.isEmpty
  | .obj fs => !fs.isEmpty

/-- Truthiness of an optional value (`None` is falsy). -/
def pyTruthyOpt : Option Json → Bool
  | none => false
  | some j => pyTruthy j

mutual

/-- Python `repr()` of a JSON-representable value (string escaping elided:
the source never renders strings needing escapes on the claimed paths). -/
def pyRepr : Json → String
  | .null => "None"
  | .bool true => "True"
  | .bool false => "False"
  | .num n => toString n
  | .str s => "'" ++ s ++ "'"
  | .arr xs => "[" ++ pyReprSeq xs ++ "]"
  | .obj fs => "\x7b" ++ pyReprFields fs ++ "\x7d"

/-- Comma-separated `repr`s of list elements. -/
def pyReprSeq : List Json → String
  | [] => ""
  | [x] => pyRepr x
  | x :: y :: xs => pyRepr x ++ ", " ++ pyReprSeq (y :: xs)

/-- Comma-separated `repr`s of dict entries. -/
def pyReprFields : List (String × Json) → String
  | [] => ""
  | [(k, v)] => "'" ++ k ++ "': " ++ pyRepr v
  | (k, v) :: f :: fs => "'" ++ k ++ "': " ++ pyRepr v ++ ", " ++ pyReprFields (f :: fs)

end

/-- Python `str()` as used by f-string interpolation. -/
def pyStr : Json → String
  | .str s => s
  | j => pyRepr j

/-- Python `x.get(k)` on a dict; `AttributeError` when `x` is not a dict. -/
def Json.get : Json → String → Except String (Option Json)
  | .obj fs, k => .ok (fs.lookup k)
  | _, _ => .error "AttributeError: object has no attribute get"

/-- Interpolation of `x.get(k, d)` where the default `d` is a display string. -/
def pyGetStr (j : Json) (k : String) (d : String) : Except String String := do
  let v ← Json.get j k
  pure (match v with | some x => pyStr x | none => d)

/-- Python iteration over a value: lists yield elements, strings yield
characters, dicts yield their keys; other values raise `TypeError`. -/
def pyIter : Json → Except String (List Json)
  | .arr xs => .ok xs
  | .str s => .ok (s.toList.map (fun c => .str c.toString))
  | .obj fs => .ok (fs.map (fun kv => .str kv.1))
  | _ => .error "TypeError: object is not iterable"

/-- Python `sep.join(items)`: every item must be a string. -/
def pyJoin (sep : String) : List Json → Except String String
  | [] => .ok ""
  | [.str s] => .ok s
  | .str s :: y :: xs => do
      let rest ← pyJoin sep (y :: xs)
      .ok (s ++ sep ++ rest)
  | _ => .error "TypeError: sequence item is not str"

/-- Python `sep.join(items)` on a list already known to hold strings
(total, used where the source joins a list of built strings). -/
def joinSep (sep : String) : List String → String
  | [] => ""
  | [s] => s
  | s :: y :: xs => s ++ sep ++ joinSep sep (y :: xs)

/-- Python `len()`. -/
def pyLen : Json → Except String Nat
  | .arr xs => .ok xs.length
  | .obj fs => .ok fs.length
  | .str s => .ok s.length
  | _ => .error "TypeError: object has no len"

/-- Python `x[k]` subscription with a string key. -/
def pySubscript (j : Json) (k : String) : Except String Json :=
  match j with
  | .obj fs =>
    match fs.lookup k with
    | some v => .ok v
    | none => .error ("'" ++ k ++ "'")
  | _ => .error "TypeError: object is not subscriptable"

/-- Python `needle in x` for a string needle: key lookup on dicts, element
equality on lists (a string only equals string elements), substring on
strings; `TypeError` otherwise. -/
def pyInStr (needle : String) : Json → Except String Bool
  | .obj fs => .ok (fs.lookup needle).isSome
  | .arr xs => .ok (xs.any (fun x => match x with | .str s => s == needle | _ => false))
  | .str s => .ok ((s.splitOn needle).length > 1)
  | _ => .error "TypeError: argument is not a container"

/-- Python `result or dflt`. -/
def pyOr (result : Option Json) (dflt : Json) : Json :=
  match result with
  | some j => if pyTruthy j then j else dflt
  | none => dflt

/-- One HTTP request as issued by `_make_request`: method, full URL,
`Authorization` header (when attached), query params, JSON body. -/
structure Request where
  method : String
  url : String
  authHeader : Option String
  params : Option (List (String × Json))
  body : Option Json

/-- What the network does with an issued request: a transport-level fault
(connection failure, timeout, ...) or a response with a status code and the
outcome of parsing its body as JSON (`.error` models a malformed body). -/
inductive NetOutcome where
  | fault (msg : String)
  | response (status : Nat) (jsonBody : Except String Json)

def Network := Request → NetOutcome

/-- Embeds `PetstoreClient._make_request` (client.py lines 27-62).  Returns the
present-or-absent JSON outcome together with the singleton list of issued
requests.  Total: no failure mode escapes as an exception. -/
def _make_request (base_url : String) (net : Network) (method : String) (endpoint : String)
    (auth_token : Option Json) (params : Option (List (String × Json)))
    (json_data : Option Json) : Option Json × List Request :=
  let url := base_url ++ "/api/v3" ++ endpoint
  let headers : Option String :=
    if pyTruthyOpt auth_token then some ("Bearer " ++ pyStr (auth_token.getD .null)) else none
  let req : Request := ⟨method, url, headers, params, json_data⟩
  match net req with
  | .fault _ => (none, [req])
  | .response status jsonBody =>
    if status = 200 ∨ status = 201 then
      match jsonBody with
      | .ok j => (some j, [req])
      | .error _ => (none, [req])
    else if status = 404 then (none, [req])
    else (none, [req])

/-- Embeds `PetstoreClient.search_pets_by_status` (client.py lines 64-73). -/
def search_pets_by_status (base_url : String) (net : Network) (status : Json)
    (auth_token : Option Json) : Json × List Request :=
  if !pyTruthyOpt auth_token then (.arr [], [])
  else
    let (result, tr) := _make_request base_url net "GET" "/pet/findByStatus" auth_token
      (some [("status", status)]) none
    (pyOr result (.arr []), tr)

/-- Embeds `PetstoreClient.search_pets_by_tags` (client.py lines 75-82).
`",".join(tags)` can raise `TypeError` on a non-string element, hence the
`Except` result; the anonymous short-circuit happens before the join. -/
def search_pets_by_tags (base_url : String) (net : Network) (tags : Json)
    (auth_token : Option Json) : Except String (Json × List Request) :=
  if !pyTruthyOpt auth_token then .ok (.arr [], [])
  else do
    let elems ← pyIter tags
    let tags_param ← pyJoin "," elems
    let (result, tr) := _make_request base_url net "GET" "/pet/findByTags" auth_token
      (some [("tags", .str tags_param)]) none
    .ok (pyOr result (.arr []), tr)

/-- Embeds `PetstoreClient.get_pet_by_id` (client.py lines 84-89). -/
def get_pet_by_id (base_url : String) (net : Network) (pet_id : Json)
    (auth_token : Option Json) : Option Json × List Request :=
  if !pyTruthyOpt auth_token then (none, [])
  else _make_request base_url net "GET" ("/pet/" ++ pyStr pet_id) auth_token none none

/-- Embeds `PetstoreClient.get_store_inventory` (client.py lines 91-93). -/
def get_store_inventory (base_url : String) (net : Network)
    (auth_token : Json) : Option Json × List Request :=
  _make_request base_url net "GET" "/store/inventory" (some auth_token) none none

/-- Embeds `PetstoreClient.get_order_by_id` (client.py lines 95-97). -/
def get_order_by_id (base_url : String) (net : Network) (order_id : Json)
    (auth_token : Json) : Option Json × List Request :=
  _make_request base_url net "GET" ("/store/order/" ++ pyStr order_id) (some auth_token) none none

/-- Embeds `PetstoreClient.place_order` (client.py lines 99-111): the body always
holds `petId`, `quantity`, `status`, `complete`; `shipDate` is appended only
when `ship_date` is truthy. -/
def place_order (base_url : String) (net : Network) (pet_id : Json)
    (auth_token : Option Json) (ship_date : Option Json) : Option Json × List Request :=
  let order_data : List (String × Json) :=
    [("petId", pet_id), ("quantity", .num 1), ("status", .str "placed"), ("complete", .bool false)]
  let order_data :=
    if pyTruthyOpt ship_date then order_data ++ [("shipDate", ship_date.getD .null)]
    else order_data
  _make_request base_url net "POST" "/store/order" auth_token none (some (.obj order_data))

/-- Embeds `PetstoreClient.login_user` (client.py lines 113-115). -/
def login_user (base_url : String) (net : Network) (username : Json)
    (password : Json) : Option Json × List Request :=
  _make_request base_url net "GET" "/user/login" none
    (some [("username", username), ("password", password)]) none

/-- Embeds `PetstoreClient.get_user_profile` (client.py lines 117-119). -/
def get_user_profile (base_url : String) (net : Network) (username : Json)
    (auth_token : Json) : Option Json × List Request :=
  _make_request base_url net "GET" ("/user/" ++ pyStr username) (some auth_token) none none

/-- Embeds `PetstoreClient.create_user` (client.py lines 121-123). -/
def create_user (base_url : String) (net : Network)
    (user_data : Json) : Option Json × List Request :=
  _make_request base_url net "POST" "/user" none none (some user_data)

/-- Embeds `PetstoreClient.add_pet` (client.py lines 125-127). -/
def add_pet (base_url : String) (net : Network) (pet_data : Json)
    (auth_token : Option Json) : Option Json × List Request :=
  _make_request base_url net "POST" "/pet" auth_token none (some pet_data)

/-- The category expression shared by the pet formatters (client.py lines
136 and 144): `pet.get("category", ...).get("name", "Unknown") if
pet.get("category") else "Unknown"`. -/
def formatCategory (pet : Json) : Except String String := do
  let catOpt ← Json.get pet "category"
  if pyTruthyOpt catOpt then do
    let nm ← Json.get (catOpt.getD (.obj [])) "name"
    pure (match nm with | some v => pyStr v | none => "Unknown")
  else pure "Unknown"

/-- The element expression of the tag comprehension (client.py lines 137
and 145): `tag.get("name", "")`. -/
def tagNameOrEmpty (t : Json) : Except String Json := do
  let n ← Json.get t "name"
  pure (n.getD (.str ""))

/-- The tags expression shared by the pet formatters (client.py lines 137
and 145): `", ".join(tag.get("name", "") for tag in pet.get("tags", []))`. -/
def formatTags (pet : Json) : Except String String := do
  let tagsJ ← Json.get pet "tags"
  let tagItems ← pyIter (tagsJ.getD (.arr []))
  let tagNames ← tagItems.mapM tagNameOrEmpty
  pyJoin ", " tagNames

/-- One line of `format_pets_list` (client.py lines 136-138).  The source
line starts with the mojibake bullet sequence found verbatim in the file. -/
def formatPetLine (pet : Json) : Except String String := do
  let category ← formatCategory pet
  let tags ← formatTags pet
  let nameS ← pyGetStr pet "name" "Unnamed"
  let idS ← pyGetStr pet "id" "None"
  let statusS ← pyGetStr pet "status" "None"
  pure ("â€¢ " ++ nameS ++ " (ID: " ++ idS ++ ") - " ++ category ++ " - Status: " ++ statusS
    ++ " - Tags: " ++ (if tags = "" then "None" else tags))

/-- Embeds `PetstoreClient.format_pets_list` (client.py lines 129-140).  The join
separator in the source is the two-character literal backslash-n (the file
has an escaped backslash inside a regular string), not a newline. -/
def format_pets_list (pets : Json) : Except String String :=
  if !pyTruthy pets then .ok "No pets found."
  else do
    let items ← pyIter pets
    let lines ← items.mapM formatPetLine
    pure (joinSep "\\n" lines)

/-- Embeds `PetstoreClient.format_pet_details` (client.py lines 142-153); the
triple-quoted f-string holds real newlines. -/
def format_pet_details (pet : Json) : Except String String := do
  let category ← formatCategory pet
  let tags ← formatTags pet
  let purlsOpt ← Json.get pet "photoUrls"
  let purlItems ← pyIter (purlsOpt.getD (.arr []))
  let photos ← pyJoin ", " purlItems
  let nameS ← pyGetStr pet "name" "Unnamed"
  let idS ← pyGetStr pet "id" "None"
  let statusS ← pyGetStr pet "status" "None"
  pure ("Name: " ++ nameS ++ "\nID: " ++ idS ++ "\nCategory: " ++ category ++ "\nStatus: "
    ++ statusS ++ "\nTags: " ++ (if tags = "" then "None" else tags) ++ "\nPhotos: "
    ++ (if photos = "" then "None" else photos))

/-- Embeds `PetstoreClient.format_order_details` (client.py lines 155-162). -/
def format_order_details (order : Json) : Except String String := do
  let idS ← pyGetStr order "id" "None"
  let petIdS ← pyGetStr order "petId" "None"
  let quantityS ← pyGetStr order "quantity" "None"
  let statusS ← pyGetStr order "status" "None"
  let shipDateS ← pyGetStr order "shipDate" "Not set"
  let completeS ← pyGetStr order "complete" "False"
  pure ("Order ID: " ++ idS ++ "\nPet ID: " ++ petIdS ++ "\nQuantity: " ++ quantityS
    ++ "\nStatus: " ++ statusS ++ "\nShip Date: " ++ shipDateS ++ "\nComplete: " ++ completeS)

/-- Embeds `PetstoreClient.format_user_details` (client.py lines 164-171). -/
def format_user_details (user : Json) : Except String String := do
  let usernameS ← pyGetStr user "username" "None"
  let firstS ← pyGetStr user "firstName" ""
  let lastS ← pyGetStr user "lastName" ""
  let emailS ← pyGetStr user "email" "Not provided"
  let phoneS ← pyGetStr user "phone" "Not provided"
  let roleS ← pyGetStr user "role" "customer"
  let statusS ← pyGetStr user "userStatus" "1"
  pure ("Username: " ++ usernameS ++ "\nName: " ++ firstS ++ " " ++ lastS ++ "\nEmail: "
    ++ emailS ++ "\nPhone: " ++ phoneS ++ "\nRole: " ++ roleS ++ "\nStatus: " ++ statusS)

/-- The ten tool names advertised by `list_tools` (server.py lines 26-237). -/
def toolNames : List String :=
  ["search_pets_by_status", "search_pets_by_tags", "get_pet_by_id", "get_store_inventory",
   "get_order_by_id", "place_order", "login_user", "get_user_profile", "create_user", "add_pet"]

/-- Lookup `arguments[k]` on the argument bag: `KeyError` (whose `str()` is the
quoted key) when the key is absent. -/
def argsGet (args : List (String × Json)) (k : String) : Except String Json :=
  match args.lookup k with
  | some v => .ok v
  | none => .error ("'" ++ k ++ "'")

/-- A successful return site of `call_tool`: one `TextContent` in a
singleton list, alongside the requests issued so far. -/
def out (tr : List Request) (t : String) : Except String (List String) × List Request :=
  (.ok [t], tr)

/-- An exception escaping a branch of `call_tool`, with the requests that
were already issued before it was raised. -/
def errOut (tr : List Request) (m : String) : Except String (List String) × List Request :=
  (.error m, tr)

/-- The body of `call_tool` (server.py lines 239-332) before the outer
`except` clause: one branch per tool name, in source order, each ending in
a single `TextContent`; `.error` carries an uncaught Python exception's
message together with the requests issued before it was raised. -/
def call_tool_run (base_url : String) (net : Network) (name : String)
    (arguments : List (String × Json)) : Except String (List String) × List Request :=
  if name = "search_pets_by_status" then
    match argsGet arguments "status" with
    | .error m => errOut [] m
    | .ok status =>
      let (result, tr) := search_pets_by_status base_url net status none
      match pyLen result with
      | .error m => errOut tr m
      | .ok n =>
        match format_pets_list result with
        | .error m => errOut tr m
        | .ok fmt =>
          out tr ("Found " ++ toString n ++ " pets with status '" ++ pyStr status
            ++ "':\\n" ++ fmt)
  else if name = "search_pets_by_tags" then
    match argsGet arguments "tags" with
    | .error m => errOut [] m
    | .ok tags =>
      match search_pets_by_tags base_url net tags none with
      | .error m => errOut [] m
      | .ok (result, tr) =>
        match pyLen result with
        | .error m => errOut tr m
        | .ok n =>
          match format_pets_list result with
          | .error m => errOut tr m
          | .ok fmt =>
            out tr ("Found " ++ toString n ++ " pets with tags " ++ pyStr tags
              ++ ":\\n" ++ fmt)
  else if name = "get_pet_by_id" then
    match argsGet arguments "pet_id" with
    | .error m => errOut [] m
    | .ok pet_id =>
      let (result, tr) := get_pet_by_id base_url net pet_id none
      if pyTruthyOpt result then
        match format_pet_details (result.getD .null) with
        | .error m => errOut tr m
        | .ok fmt => out tr ("Pet Details:\\n" ++ fmt)
      else out tr "Pet not found"
  else if name = "get_store_inventory" then
    match argsGet arguments "auth_token" with
    | .error m => errOut [] m
    | .ok tok =>
      let (result, tr) := get_store_inventory base_url net tok
      if pyTruthyOpt result then
        match result.getD .null with
        | .obj fs =>
          out tr ("Store Inventory:\\n" ++ joinSep "\\n"
            (fs.map (fun kv => kv.1 ++ ": " ++ pyStr kv.2 ++ " pets")))
        | _ => errOut tr "AttributeError: object has no attribute items"
      else out tr "Failed to retrieve inventory"
  else if name = "get_order_by_id" then
    match argsGet arguments "order_id" with
    | .error m => errOut [] m
    | .ok order_id =>
      match argsGet arguments "auth_token" with
      | .error m => errOut [] m
      | .ok tok =>
        let (result, tr) := get_order_by_id base_url net order_id tok
        if pyTruthyOpt result then
          match format_order_details (result.getD .null) with
          | .error m => errOut tr m
          | .ok fmt => out tr ("Order Details:\\n" ++ fmt)
        else out tr "Order not found or access denied"
  else if name = "place_order" then
    match argsGet arguments "pet_id" with
    | .error m => errOut [] m
    | .ok pet_id =>
      let ship_date := arguments.lookup "ship_date"
      match argsGet arguments "auth_token" with
      | .error m => errOut [] m
      | .ok tok =>
        let (result, tr) := place_order base_url net pet_id (some tok) ship_date
        if pyTruthyOpt result then
          match format_order_details (result.getD .null) with
          | .error m => errOut tr m
          | .ok fmt => out tr ("Order placed successfully:\\n" ++ fmt)
        else out tr "Failed to place order"
  else if name = "login_user" then
    match argsGet arguments "username" with
    | .error m => errOut [] m
    | .ok username =>
      match argsGet arguments "password" with
      | .error m => errOut [] m
      | .ok password =>
        let (result, tr) := login_user base_url net username password
        match result with
        | none => out tr "Login failed - invalid credentials"
        | some j =>
          if pyTruthy j then
            match pyInStr "token" j with
            | .error m => errOut tr m
            | .ok false => out tr "Login failed - invalid credentials"
            | .ok true =>
              match pySubscript j "token" with
              | .error m => errOut tr m
              | .ok tokv => out tr ("Login successful! Token: " ++ pyStr tokv)
          else out tr "Login failed - invalid credentials"
  else if name = "get_user_profile" then
    match argsGet arguments "username" with
    | .error m => errOut [] m
    | .ok username =>
      match argsGet arguments "auth_token" with
      | .error m => errOut [] m
      | .ok tok =>
        let (result, tr) := get_user_profile base_url net username tok
        if pyTruthyOpt result then
          match format_user_details (result.getD .null) with
          | .error m => errOut tr m
          | .ok fmt => out tr ("User Profile:\\n" ++ fmt)
        else out tr "User not found or access denied"
  else if name = "create_user" then
    match argsGet arguments "username" with
    | .error m => errOut [] m
    | .ok username =>
      match argsGet arguments "password" with
      | .error m => errOut [] m
      | .ok password =>
        let user_data : Json := .obj
          [("username", username), ("password", password),
           ("email", (arguments.lookup "email").getD .null),
           ("firstName", (arguments.lookup "first_name").getD .null),
           ("lastName", (arguments.lookup "last_name").getD .null),
           ("phone", (arguments.lookup "phone").getD .null)]
        let (result, tr) := create_user base_url net user_data
        if pyTruthyOpt result then
          match format_user_details (result.getD .null) with
          | .error m => errOut tr m
          | .ok fmt => out tr ("User created successfully:\\n" ++ fmt)
        else out tr "Failed to create user"
  else if name = "add_pet" then
    match argsGet arguments "name" with
    | .error m => errOut [] m
    | .ok petName =>
      match pyIter ((arguments.lookup "tag_names").getD (.arr [])) with
      | .error m => errOut [] m
      | .ok tagItems =>
        let pet_data : Json := .obj
          [("name", petName),
           ("category", .obj [("name", (arguments.lookup "category_name").getD (.str "Uncategorized"))]),
           ("status", (arguments.lookup "status").getD (.str "available")),
           ("photoUrls", (arguments.lookup "photo_urls").getD (.arr [])),
           ("tags", .arr (tagItems.map (fun t => .obj [("name", t)])))]
        match argsGet arguments "auth_token" with
        | .error m => errOut [] m
        | .ok tok =>
          let (result, tr) := add_pet base_url net pet_data (some tok)
          if pyTruthyOpt result then
            match format_pet_details (result.getD .null) with
            | .error m => errOut tr m
            | .ok fmt => out tr ("Pet added successfully:\\n" ++ fmt)
          else out tr "Failed to add pet"
  else out [] ("Unknown tool: " ++ name)

/-- Embeds `call_tool` (server.py lines 239-332) with its outer `except Exception`
clause: any escaping exception is rendered as one `Error: <message>` text. -/
def call_tool (base_url : String) (net : Network) (name : String)
    (arguments : List (String × Json)) : List String × List Request :=
  match call_tool_run base_url net name arguments with
  | (.ok ts, tr) => (ts, tr)
  | (.error m, tr) => (["Error: " ++ m], tr)

/-- Modelled from the spec's words for the list-of-pets rendering claim:
one line per pet of the form
`name (ID: id) - category - Status: status - Tags: comma-joined-tag-names`,
lines joined by a newline, empty list rendered as the fixed message.  Field
extraction is shared with the source formatter; compared against
`format_pets_list` to settle the rendering claim. -/
def claimedPetLine (pet : Json) : Except String String := do
  let category ← formatCategory pet
  let tags ← formatTags pet
  let nameS ← pyGetStr pet "name" "Unnamed"
  let idS ← pyGetStr pet "id" "None"
  let statusS ← pyGetStr pet "status" "None"
  pure (nameS ++ " (ID: " ++ idS ++ ") - " ++ category ++ " - Status: " ++ statusS
    ++ " - Tags: " ++ (if tags = "" then "None" else tags))

/-- Modelled from the spec's words: the whole list-of-pets rendering as the
claim states it (see `claimedPetLine`). -/
def claimedPetsListFormat (pets : Json) : Except String String :=
  if !pyTruthy pets then .ok "No pets found."
  else do
    let items ← pyIter pets
    let lines ← items.mapM claimedPetLine
    pure (joinSep "\n" lines)

/-- A pet record as the list-rendering claim quantifies over it: name, id
and status present, category and tag list each possibly absent. -/
structure PetFields where
  name : String
  id : Int
  category : Option String
  status : String
  tags : Option (List String)

/-- The JSON object for a `PetFields` record: absent optional parts omit
the key entirely. -/
def buildPet (p : PetFields) : Json :=
  .obj ([("name", .str p.name), ("id", .num p.id)]
    ++ (match p.category with
        | some c => [("category", Json.obj [("name", Json.str c)])]
        | none => [])
    ++ [("status", .str p.status)]
    ++ (match p.tags with
        | some ts => [("tags", Json.arr (ts.map (fun t => Json.obj [("name", Json.str t)])))]
        | none => []))

/-- The per-pet segment `format_pets_list` actually emits for a
`PetFields` record: the claimed form prefixed by the source's literal
bullet sequence. -/
def amendedPetLine (p : PetFields) : String :=
  let tags := joinSep ", " (p.tags.getD [])
  "â€¢ " ++ p.name ++ " (ID: " ++ toString p.id ++ ") - " ++ p.category.getD "Unknown"
    ++ " - Status: " ++ p.status ++ " - Tags: " ++ (if tags = "" then "None" else tags)

/-- A network on which every request fails at transport level. -/
def net0 : Network := fun _ => .fault "connection refused"

/-- A network on which every request gets HTTP 404. -/
def net404 : Network := fun _ => .response 404 (.ok .null)

/-- A network answering HTTP 200 with a fixed JSON body. -/
def netOk (j : Json) : Network := fun _ => .response 200 (.ok j)

/-- A network answering HTTP 200 and echoing the request's JSON body. -/
def echoNet : Network := fun req => .response 200 (.ok (req.body.getD .null))

/-- Two concrete pets (category and tags absent) used to compare the actual
list rendering with the claimed one. -/
def petsEx : Json :=
  .arr [.obj [("name", .str "Rex"), ("id", .num 1), ("status", .str "available")],
        .obj [("name", .str "Max"), ("id", .num 2), ("status", .str "pending")]]

/-- C2: `_make_request` issues exactly one request; it returns the parsed
JSON body on HTTP 200 or 201, the absent value on 404, absent on every
other status, absent when a 200/201 body fails to parse, and absent on
every transport-level fault — and, being a total function into
`Option Json`, it never raises past its own boundary. -/
theorem C2_make_request_outcomes (base_url : String) (net : Network)
    (method endpoint : String) (auth_token : Option Json)
    (params : Option (List (String × Json))) (json_data : Option Json) (req : Request)
    (hreq : req = ⟨method, base_url ++ "/api/v3" ++ endpoint,
      (if pyTruthyOpt auth_token then some ("Bearer " ++ pyStr (auth_token.getD Json.null))
       else none), params, json_data⟩) :
    (_make_request base_url net method endpoint auth_token params json_data).2 = [req] ∧
    (∀ j, net req = NetOutcome.response 200 (Except.ok j) →
      (_make_request base_url net method endpoint auth_token params json_data).1 = some j) ∧
    (∀ j, net req = NetOutcome.response 201 (Except.ok j) →
      (_make_request base_url net method endpoint auth_token params json_data).1 = some j) ∧
    (∀ e s, (s = 200 ∨ s = 201) → net req = NetOutcome.response s (Except.error e) →
      (_make_request base_url net method endpoint auth_token params json_data).1 = none) ∧
    (∀ pb, net req = NetOutcome.response 404 pb →
      (_make_request base_url net method endpoint auth_token params json_data).1 = none) ∧
    (∀ s pb, s ≠ 200 → s ≠ 201 → net req = NetOutcome.response s pb →
      (_make_request base_url net method endpoint auth_token params json_data).1 = none) ∧
    (∀ m, net req = NetOutcome.fault m →
      (_make_request base_url net method endpoint auth_token params json_data).1 = none) := by
  subst hreq
  refine ⟨?_, ?_, ?_, ?_, ?_, ?_, ?_⟩
  · simp only [_make_request]
    split
    · rfl
    · split
      · split <;> rfl
      · split <;> rfl
  · intro j h
    simp [_make_request, h]
  · intro j h
    simp [_make_request, h]
  · intro e s hs h
    rcases hs with hs | hs <;> subst hs <;> simp [_make_request, h]
  · intro pb h
    simp [_make_request, h]
  · intro s pb h200 h201 h
    simp only [_make_request, h, h200, h201]
    split
    · simp_all
    · split <;> rfl
  · intro m h
    simp [_make_request, h]

/-- Witness for C2 at concrete inputs: a 200 response with body `5` is
returned parsed, a 404 gives absent, and a transport fault gives absent. -/
theorem C2_make_request_outcomes_witness :
    (_make_request "http://localhost:3002" (netOk (Json.num 5)) "GET" "/pet/1"
      none none none).1 = some (Json.num 5) ∧
    (_make_request "http://localhost:3002" net404 "GET" "/pet/1" none none none).1 = none ∧
    (_make_request "http://localhost:3002" net0 "GET" "/pet/1" none none none).1 = none := by
  refine ⟨?_, ?_, ?_⟩
  · exact (C2_make_request_outcomes "http://localhost:3002" (netOk (Json.num 5)) "GET" "/pet/1"
      none none none _ rfl).2.1 (Json.num 5) rfl
  · exact (C2_make_request_outcomes "http://localhost:3002" net404 "GET" "/pet/1"
      none none none _ rfl).2.2.2.2.1 (Except.ok Json.null) rfl
  · exact (C2_make_request_outcomes "http://localhost:3002" net0 "GET" "/pet/1"
      none none none _ rfl).2.2.2.2.2.2 "connection refused" rfl

/-- C9: the order and user formatters apply rendering-time defaults even
when the source JSON omits the field entirely: ship date renders as
`Not set` and the completion flag as `False`; email and phone render as
`Not provided`, role as `customer`, numeric status as `1`. -/
theorem C9_formatter_rendering_defaults :
    (∀ (id petId quantity : Int) (status : String),
      format_order_details (Json.obj [("id", Json.num id), ("petId", Json.num petId),
        ("quantity", Json.num quantity), ("status", Json.str status)]) =
      Except.ok ("Order ID: " ++ toString id ++ "\nPet ID: " ++ toString petId
        ++ "\nQuantity: " ++ toString quantity ++ "\nStatus: " ++ status
        ++ "\nShip Date: " ++ "Not set" ++ "\nComplete: " ++ "False")) ∧
    (∀ (username firstName lastName : String),
      format_user_details (Json.obj [("username", Json.str username),
        ("firstName", Json.str firstName), ("lastName", Json.str lastName)]) =
      Except.ok ("Username: " ++ username ++ "\nName: " ++ firstName ++ " " ++ lastName
        ++ "\nEmail: " ++ "Not provided" ++ "\nPhone: " ++ "Not provided"
        ++ "\nRole: " ++ "customer" ++ "\nStatus: " ++ "1")) := by
  constructor
  · intro id petId quantity status
    rfl
  · intro username firstName lastName
    rfl

/-- C10: a call whose operation name matches no tool in the catalog
returns exactly the text `Unknown tool: <name>` and issues no request. -/
theorem C10_unknown_tool (base_url : String) (net : Network) (name : String)
    (arguments : List (String × Json)) (h : name ∉ toolNames) :
    call_tool base_url net name arguments = (["Unknown tool: " ++ name], []) := by
  simp only [toolNames, List.mem_cons, List.not_mem_nil, or_false, not_or] at h
  obtain ⟨h1, h2, h3, h4, h5, h6, h7, h8, h9, h10⟩ := h
  simp [call_tool, call_tool_run, out, h1, h2, h3, h4, h5, h6, h7, h8, h9, h10]

/-- Witness for C10: the name `nonexistent_tool` from the spec's example. -/
theorem C10_unknown_tool_witness :
    call_tool "http://localhost:3002" net0 "nonexistent_tool" [] =
      (["Unknown tool: nonexistent_tool"], []) :=
  C10_unknown_tool "http://localhost:3002" net0 "nonexistent_tool" [] (by decide)

/-- C3: the dispatcher invokes the two search tools and `get_pet_by_id`
without forwarding any auth token, so the client methods short-circuit:
both searches render the empty list, `get_pet_by_id` renders
`Pet not found`, and no HTTP request is ever issued. -/
theorem C3_tokenless_tools_short_circuit :
    (∀ (base_url : String) (net : Network) (arguments : List (String × Json)) (st : Json),
      arguments.lookup "status" = some st →
      call_tool base_url net "search_pets_by_status" arguments =
        (["Found 0 pets with status '" ++ pyStr st ++ "':\\n" ++ "No pets found."], [])) ∧
    (∀ (base_url : String) (net : Network) (arguments : List (String × Json)) (tg : Json),
      arguments.lookup "tags" = some tg →
      call_tool base_url net "search_pets_by_tags" arguments =
        (["Found 0 pets with tags " ++ pyStr tg ++ ":\\n" ++ "No pets found."], [])) ∧
    (∀ (base_url : String) (net : Network) (arguments : List (String × Json)) (pid : Json),
      arguments.lookup "pet_id" = some pid →
      call_tool base_url net "get_pet_by_id" arguments = (["Pet not found"], [])) := by
  refine ⟨?_, ?_, ?_⟩
  · intro base_url net arguments st h
    simp [call_tool, call_tool_run, argsGet, h, search_pets_by_status, pyTruthyOpt,
      format_pets_list, pyTruthy, pyLen, pyIter, out]
    rfl
  · intro base_url net arguments tg h
    simp [call_tool, call_tool_run, argsGet, h, search_pets_by_tags, pyTruthyOpt,
      format_pets_list, pyTruthy, pyLen, pyIter, out]
    rfl
  · intro base_url net arguments pid h
    simp [call_tool, call_tool_run, argsGet, h, get_pet_by_id, pyTruthyOpt, out]

/-- Witness for C3 at concrete calls on a network that would fail every
request: outputs are the fixed texts and the traces are empty. -/
theorem C3_tokenless_tools_short_circuit_witness :
    call_tool "http://localhost:3002" net0 "search_pets_by_status"
      [("status", Json.str "available")] =
      (["Found 0 pets with status 'available':\\nNo pets found."], []) ∧
    call_tool "http://localhost:3002" net0 "search_pets_by_tags"
      [("tags", Json.arr [Json.str "cute"])] =
      (["Found 0 pets with tags ['cute']:\\nNo pets found."], []) ∧
    call_tool "http://localhost:3002" net0 "get_pet_by_id" [("pet_id", Json.num 7)] =
      (["Pet not found"], []) := by
  refine ⟨?_, ?_, ?_⟩
  · exact C3_tokenless_tools_short_circuit.1 "http://localhost:3002" net0
      [("status", Json.str "available")] (Json.str "available") rfl
  · exact C3_tokenless_tools_short_circuit.2.1 "http://localhost:3002" net0
      [("tags", Json.arr [Json.str "cute"])] (Json.arr [Json.str "cute"]) rfl
  · exact C3_tokenless_tools_short_circuit.2.2 "http://localhost:3002" net0
      [("pet_id", Json.num 7)] (Json.num 7) rfl

/-- C4 counterexample: on a backend answering 404 to everything, the
`get_pet_by_id` tool renders `Pet not found` — not the claimed
`Pet not found.` with a trailing period. -/
theorem C4_counterexample_no_trailing_period :
    (call_tool "http://localhost:3002" net404 "get_pet_by_id" [("pet_id", Json.num 7)]).1 =
      ["Pet not found"] ∧
    (["Pet not found"] : List String) ≠ ["Pet not found."] :=
  ⟨rfl, by decide⟩

/-- C4 (amended): when the backend returns HTTP 404 for the pet, the
`get_pet_by_id` tool yields exactly the text `Pet not found`, without a
trailing period. -/
theorem C4_get_pet_by_id_not_found (base_url : String) (net : Network)
    (arguments : List (String × Json)) (pid : Json)
    (hpid : arguments.lookup "pet_id" = some pid)
    (_h404 : ∀ r, ∃ pb, net r = NetOutcome.response 404 pb) :
    call_tool base_url net "get_pet_by_id" arguments = (["Pet not found"], []) := by
  simp [call_tool, call_tool_run, argsGet, hpid, get_pet_by_id, pyTruthyOpt, out]

/-- Witness for the amended C4 on the all-404 network. -/
theorem C4_get_pet_by_id_not_found_witness :
    call_tool "http://localhost:3002" net404 "get_pet_by_id" [("pet_id", Json.num 9)] =
      (["Pet not found"], []) :=
  C4_get_pet_by_id_not_found "http://localhost:3002" net404 [("pet_id", Json.num 9)]
    (Json.num 9) rfl (fun _ => ⟨Except.ok Json.null, rfl⟩)

/-- C5: both client search operations called with no auth token return the
empty list without touching the network, and the empty list renders as the
fixed text `No pets found.`. -/
theorem C5_anonymous_search_empty :
    (∀ (base_url : String) (net : Network) (status : Json) (tok : Option Json),
      pyTruthyOpt tok = false →
      search_pets_by_status base_url net status tok = (Json.arr [], [])) ∧
    (∀ (base_url : String) (net : Network) (tags : Json) (tok : Option Json),
      pyTruthyOpt tok = false →
      search_pets_by_tags base_url net tags tok = Except.ok (Json.arr [], [])) ∧
    format_pets_list (Json.arr []) = Except.ok "No pets found." := by
  refine ⟨?_, ?_, ?_⟩
  · intro base_url net status tok h
    simp [search_pets_by_status, h]
  · intro base_url net tags tok h
    simp [search_pets_by_tags, h]
  · rfl

/-- Witness for C5: anonymous searches on a failing network. -/
theorem C5_anonymous_search_empty_witness :
    search_pets_by_status "http://localhost:3002" net0 (Json.str "available") none =
      (Json.arr [], []) ∧
    search_pets_by_tags "http://localhost:3002" net0 (Json.arr [Json.str "cute"]) none =
      Except.ok (Json.arr [], []) :=
  ⟨C5_anonymous_search_empty.1 "http://localhost:3002" net0 (Json.str "available") none rfl,
   C5_anonymous_search_empty.2.1 "http://localhost:3002" net0 (Json.arr [Json.str "cute"]) none rfl⟩

/-- Every successful branch of the dispatcher body produces exactly one
text (each `return` site in the source wraps a single `TextContent`). -/
theorem call_tool_run_ok_singleton (base_url : String) (net : Network) (name : String)
    (arguments : List (String × Json)) (ts : List String) (tr : List Request)
    (h : call_tool_run base_url net name arguments = (Except.ok ts, tr)) : ts.length = 1 := by
  simp only [call_tool_run, out, errOut] at h
  by_cases hn1 : name = "search_pets_by_status"
  · rw [if_pos hn1] at h
    repeat' split at h
    all_goals
      first
      | exact Except.noConfusion (congrArg Prod.fst h)
      | (have hfst := congrArg Prod.fst h
         injection hfst with he
         subst he
         rfl)
  · rw [if_neg hn1] at h
    by_cases hn2 : name = "search_pets_by_tags"
    · rw [if_pos hn2] at h
      repeat' split at h
      all_goals
        first
        | exact Except.noConfusion (congrArg Prod.fst h)
        | (have hfst := congrArg Prod.fst h
           injection hfst with he
           subst he
           rfl)
    · rw [if_neg hn2] at h
      by_cases hn3 : name = "get_pet_by_id"
      · rw [if_pos hn3] at h
        repeat' split at h
        all_goals
          first
          | exact Except.noConfusion (congrArg Prod.fst h)
          | (have hfst := congrArg Prod.fst h
             injection hfst with he
             subst he
             rfl)
      · rw [if_neg hn3] at h
        by_cases hn4 : name = "get_store_inventory"
        · rw [if_pos hn4] at h
          repeat' split at h
          all_goals
            first
            | exact Except.noConfusion (congrArg Prod.fst h)
            | (have hfst := congrArg Prod.fst h
               injection hfst with he
               subst he
               rfl)
        · rw [if_neg hn4] at h
          by_cases hn5 : name = "get_order_by_id"
          · rw [if_pos hn5] at h
            repeat' split at h
            all_goals
              first
              | exact Except.noConfusion (congrArg Prod.fst h)
              | (have hfst := congrArg Prod.fst h
                 injection hfst with he
                 subst he
                 rfl)
          · rw [if_neg hn5] at h
            by_cases hn6 : name = "place_order"
            · rw [if_pos hn6] at h
              repeat' split at h
              all_goals
                first
                | exact Except.noConfusion (congrArg Prod.fst h)
                | (have hfst := congrArg Prod.fst h
                   injection hfst with he
                   subst he
                   rfl)
            · rw [if_neg hn6] at h
              by_cases hn7 : name = "login_user"
              · rw [if_pos hn7] at h
                repeat' split at h
                all_goals
                  first
                  | exact Except.noConfusion (congrArg Prod.fst h)
                  | (have hfst := congrArg Prod.fst h
                     injection hfst with he
                     subst he
                     rfl)
              · rw [if_neg hn7] at h
                by_cases hn8 : name = "get_user_profile"
                · rw [if_pos hn8] at h
                  repeat' split at h
                  all_goals
                    first
                    | exact Except.noConfusion (congrArg Prod.fst h)
                    | (have hfst := congrArg Prod.fst h
                       injection hfst with he
                       subst he
                       rfl)
                · rw [if_neg hn8] at h
                  by_cases hn9 : name = "create_user"
                  · rw [if_pos hn9] at h
                    repeat' split at h
                    all_goals
                      first
                      | exact Except.noConfusion (congrArg Prod.fst h)
                      | (have hfst := congrArg Prod.fst h
                         injection hfst with he
                         subst he
                         rfl)
                  · rw [if_neg hn9] at h
                    by_cases hn10 : name = "add_pet"
                    · rw [if_pos hn10] at h
                      repeat' split at h
                      all_goals
                        first
                        | exact Except.noConfusion (congrArg Prod.fst h)
                        | (have hfst := congrArg Prod.fst h
                           injection hfst with he
                           subst he
                           rfl)
                    · rw [if_neg hn10] at h
                      all_goals
                        first
                        | exact Except.noConfusion (congrArg Prod.fst h)
                        | (have hfst := congrArg Prod.fst h
                           injection hfst with he
                           subst he
                           rfl)

/-- C1: for every tool name and argument bag the dispatcher returns exactly
one text response; a body that raises with message `m` is caught at the
boundary and rendered as `Error: m`, and a body that succeeds is passed
through unchanged. -/
theorem C1_dispatcher_boundary (base_url : String) (net : Network) (name : String)
    (arguments : List (String × Json)) :
    ((call_tool base_url net name arguments).1.length = 1) ∧
    (∀ m tr, call_tool_run base_url net name arguments = (Except.error m, tr) →
      call_tool base_url net name arguments = (["Error: " ++ m], tr)) ∧
    (∀ ts tr, call_tool_run base_url net name arguments = (Except.ok ts, tr) →
      call_tool base_url net name arguments = (ts, tr)) := by
  refine ⟨?_, ?_, ?_⟩
  · rcases h : call_tool_run base_url net name arguments with ⟨r, tr⟩
    cases r with
    | ok ts =>
      have hlen := call_tool_run_ok_singleton base_url net name arguments ts tr h
      simp [call_tool, h, hlen]
    | error m => simp [call_tool, h]
  · intro m tr h
    simp [call_tool, h]
  · intro ts tr h
    simp [call_tool, h]

/-- Witness for C1: a call with a missing required argument raises
`KeyError('pet_id')` inside the body and is rendered as an error text;
the response is still exactly one text. -/
theorem C1_dispatcher_boundary_witness :
    (call_tool "http://localhost:3002" net0 "get_pet_by_id" []).1.length = 1 ∧
    call_tool "http://localhost:3002" net0 "get_pet_by_id" [] = (["Error: 'pet_id'"], []) :=
  ⟨(C1_dispatcher_boundary "http://localhost:3002" net0 "get_pet_by_id" []).1,
   (C1_dispatcher_boundary "http://localhost:3002" net0 "get_pet_by_id" []).2.1 "'pet_id'" [] rfl⟩

/-- The request `_make_request` issues, spelled out (shared helper). -/
theorem make_request_trace (base_url : String) (net : Network) (method endpoint : String)
    (auth_token : Option Json) (params : Option (List (String × Json)))
    (json_data : Option Json) :
    (_make_request base_url net method endpoint auth_token params json_data).2 =
      [⟨method, base_url ++ "/api/v3" ++ endpoint,
        (if pyTruthyOpt auth_token then some ("Bearer " ++ pyStr (auth_token.getD Json.null))
         else none), params, json_data⟩] := by
  simp only [_make_request]
  split
  · rfl
  · split
    · split <;> rfl
    · split <;> rfl

/-- The requests a dispatched call issues are exactly those of its body
(the outer `except` clause issues none of its own). -/
theorem call_tool_trace (base_url : String) (net : Network) (name : String)
    (args : List (String × Json)) :
    (call_tool base_url net name args).2 = (call_tool_run base_url net name args).2 := by
  rcases h : call_tool_run base_url net name args with ⟨r, tr⟩
  cases r <;> simp [call_tool, h]

/-- C6 counterexample: with `ship_date` supplied as the empty string the
claim's "supplied → included verbatim" fails — the issued order body lacks
a `shipDate` key entirely (Python truthiness drops it). -/
theorem C6_counterexample_empty_ship_date :
    (place_order "http://localhost:3002" net0 (Json.num 5) (some (Json.str "tkn"))
      (some (Json.str ""))).2 =
      [⟨"POST", "http://localhost:3002/api/v3/store/order", some "Bearer tkn", none,
        some (Json.obj [("petId", Json.num 5), ("quantity", Json.num 1),
          ("status", Json.str "placed"), ("complete", Json.bool false)])⟩] ∧
    List.lookup "shipDate" [("petId", Json.num 5), ("quantity", Json.num 1),
      ("status", Json.str "placed"), ("complete", Json.bool false)] = none :=
  ⟨rfl, rfl⟩

/-- C6 (amended): `place_order` always sends `petId`, `quantity 1`,
`status "placed"`, `complete false`; the `shipDate` key is present exactly
when the supplied `ship_date` is truthy (absent, null and empty-string
ship dates all omit it), and then carries the supplied value verbatim. -/
theorem C6_place_order_request_body (base_url : String) (net : Network) (pet_id : Json)
    (auth_token : Option Json) (d : Json) :
    ((place_order base_url net pet_id auth_token none).2 =
      [⟨"POST", base_url ++ "/api/v3" ++ "/store/order",
        (if pyTruthyOpt auth_token then some ("Bearer " ++ pyStr (auth_token.getD Json.null))
         else none), none,
        some (Json.obj [("petId", pet_id), ("quantity", Json.num 1),
          ("status", Json.str "placed"), ("complete", Json.bool false)])⟩]) ∧
    (pyTruthy d = false →
      (place_order base_url net pet_id auth_token (some d)).2 =
      [⟨"POST", base_url ++ "/api/v3" ++ "/store/order",
        (if pyTruthyOpt auth_token then some ("Bearer " ++ pyStr (auth_token.getD Json.null))
         else none), none,
        some (Json.obj [("petId", pet_id), ("quantity", Json.num 1),
          ("status", Json.str "placed"), ("complete", Json.bool false)])⟩]) ∧
    (pyTruthy d = true →
      (place_order base_url net pet_id auth_token (some d)).2 =
      [⟨"POST", base_url ++ "/api/v3" ++ "/store/order",
        (if pyTruthyOpt auth_token then some ("Bearer " ++ pyStr (auth_token.getD Json.null))
         else none), none,
        some (Json.obj [("petId", pet_id), ("quantity", Json.num 1),
          ("status", Json.str "placed"), ("complete", Json.bool false),
          ("shipDate", d)])⟩]) := by
  refine ⟨?_, ?_, ?_⟩
  · exact make_request_trace base_url net "POST" "/store/order" auth_token none _
  · intro hd
    simp only [place_order, pyTruthyOpt, hd, Bool.false_eq_true, if_false]
    exact make_request_trace base_url net "POST" "/store/order" auth_token none _
  · intro hd
    simp only [place_order, pyTruthyOpt, hd, if_true]
    exact make_request_trace base_url net "POST" "/store/order" auth_token none _

/-- Witness for the amended C6: no ship date versus the spec's concrete
truthy ship date. -/
theorem C6_place_order_request_body_witness :
    (place_order "http://localhost:3002" net0 (Json.num 5) (some (Json.str "tkn")) none).2 =
      [⟨"POST", "http://localhost:3002/api/v3/store/order", some "Bearer tkn", none,
        some (Json.obj [("petId", Json.num 5), ("quantity", Json.num 1),
          ("status", Json.str "placed"), ("complete", Json.bool false)])⟩] ∧
    (place_order "http://localhost:3002" net0 (Json.num 5) (some (Json.str "tkn"))
      (some (Json.str "2025-01-01T00:00:00Z"))).2 =
      [⟨"POST", "http://localhost:3002/api/v3/store/order", some "Bearer tkn", none,
        some (Json.obj [("petId", Json.num 5), ("quantity", Json.num 1),
          ("status", Json.str "placed"), ("complete", Json.bool false),
          ("shipDate", Json.str "2025-01-01T00:00:00Z")])⟩] := by
  constructor
  · exact (C6_place_order_request_body "http://localhost:3002" net0 (Json.num 5)
      (some (Json.str "tkn")) Json.null).1
  · exact (C6_place_order_request_body "http://localhost:3002" net0 (Json.num 5)
      (some (Json.str "tkn")) (Json.str "2025-01-01T00:00:00Z")).2.2 rfl

/-- C7: for every `add_pet` argument bag holding a name (and the required
auth token, with any well-formed `tag_names` list), the dispatcher sends
body `name, category.name (default Uncategorized), status (default
available), photoUrls (default empty), tags` as `name`-objects; and on an
echoing backend the omitted-`category_name`/`tag_names` call renders
`Category: Uncategorized` and `Tags: None`. -/
theorem C7_add_pet_request_body :
    (∀ (base_url : String) (net : Network) (args : List (String × Json)) (nm tok : Json)
       (tagList : List Json),
      args.lookup "name" = some nm →
      args.lookup "auth_token" = some tok →
      (args.lookup "tag_names").getD (Json.arr []) = Json.arr tagList →
      (call_tool base_url net "add_pet" args).2 =
        [⟨"POST", base_url ++ "/api/v3" ++ "/pet",
          (if pyTruthy tok then some ("Bearer " ++ pyStr tok) else none), none,
          some (Json.obj
            [("name", nm),
             ("category", Json.obj
               [("name", (args.lookup "category_name").getD (Json.str "Uncategorized"))]),
             ("status", (args.lookup "status").getD (Json.str "available")),
             ("photoUrls", (args.lookup "photo_urls").getD (Json.arr [])),
             ("tags", Json.arr (tagList.map (fun t => Json.obj [("name", t)])))])⟩]) ∧
    (∀ (base_url nm2 tk : String),
      (call_tool base_url echoNet "add_pet"
        [("name", Json.str nm2), ("auth_token", Json.str tk)]).1 =
      ["Pet added successfully:\\n" ++ ("Name: " ++ nm2 ++ "\nID: " ++ "None" ++ "\nCategory: "
        ++ "Uncategorized" ++ "\nStatus: " ++ "available" ++ "\nTags: " ++ "None"
        ++ "\nPhotos: " ++ "None")]) := by
  constructor
  · intro base_url net args nm tok tagList h1 h2 h3
    rw [call_tool_trace]
    simp only [call_tool_run, argsGet, h1, h2, h3, pyIter]
    simp only [String.reduceEq, reduceIte]
    repeat' split
    all_goals
      simp only [out, errOut, add_pet]
      rw [make_request_trace]
      simp_all [pyTruthyOpt]
  · intro base_url nm2 tk
    rfl

/-- Witness for C7: a bag with only the required fields, against the
failing network for the body and the echoing network for the rendering. -/
theorem C7_add_pet_request_body_witness :
    (call_tool "http://localhost:3002" net0 "add_pet"
      [("name", Json.str "Bob"), ("auth_token", Json.str "tkn")]).2 =
      [⟨"POST", "http://localhost:3002/api/v3/pet", some "Bearer tkn", none,
        some (Json.obj [("name", Json.str "Bob"),
          ("category", Json.obj [("name", Json.str "Uncategorized")]),
          ("status", Json.str "available"), ("photoUrls", Json.arr []),
          ("tags", Json.arr [])])⟩] ∧
    (call_tool "http://localhost:3002" echoNet "add_pet"
      [("name", Json.str "Bob"), ("auth_token", Json.str "tkn")]).1 =
      ["Pet added successfully:\\nName: Bob\nID: None\nCategory: Uncategorized\nStatus: available\nTags: None\nPhotos: None"] := by
  constructor
  · exact C7_add_pet_request_body.1 "http://localhost:3002" net0
      [("name", Json.str "Bob"), ("auth_token", Json.str "tkn")]
      (Json.str "Bob") (Json.str "tkn") [] rfl rfl rfl
  · exact C7_add_pet_request_body.2 "http://localhost:3002" "Bob" "tkn"

/-- An `Except.ok` value feeds its payload to a monadic continuation (shared helper). -/
theorem except_bind_ok {α β ε : Type} (x : α) (f : α → Except ε β) :
    (Except.ok x >>= f) = f x := rfl

/-- Python `str.join` over a list of JSON strings never raises and agrees with
the total string join. -/
theorem pyJoin_strs (sep : String) (ts : List String) :
    pyJoin sep (ts.map (fun t => Json.str t)) = Except.ok (joinSep sep ts) := by
  induction ts with
  | nil => rfl
  | cons a l ih =>
    cases l with
    | nil => rfl
    | cons b m =>
      simp only [List.map_cons] at ih ⊢
      simp only [pyJoin, ih, except_bind_ok]
      rfl

/-- Extracting `name` from each built tag object yields the tag names. -/
theorem tagNames_loop (ts : List String) (acc : List Json) :
    List.mapM.loop tagNameOrEmpty (ts.map (fun t => Json.obj [("name", Json.str t)])) acc =
      Except.ok (acc.reverse ++ ts.map (fun t => Json.str t)) := by
  induction ts generalizing acc with
  | nil =>
    simp [List.mapM.loop]
    rfl
  | cons a l ih =>
    simp [List.mapM.loop, tagNameOrEmpty, Json.get, except_bind_ok, ih, List.lookup]

/-- The per-pet segment of `format_pets_list` on a structured pet record. -/
theorem formatPetLine_buildPet (p : PetFields) :
    formatPetLine (buildPet p) = Except.ok (amendedPetLine p) := by
  rcases p with ⟨nm, id, cat, st, tags⟩
  cases cat <;> cases tags <;>
    simp [formatPetLine, buildPet, amendedPetLine, formatCategory, formatTags, Json.get,
      pyGetStr, pyTruthyOpt, pyTruthy, pyStr, pyRepr, pyIter, tagNames_loop, pyJoin_strs,
      except_bind_ok, joinSep, List.lookup, List.mapM.loop, pyJoin]

/-- Formatting each built pet succeeds with the amended segments. -/
theorem formatPetLine_loop (ps : List PetFields) (acc : List String) :
    List.mapM.loop formatPetLine (ps.map buildPet) acc =
      Except.ok (acc.reverse ++ ps.map amendedPetLine) := by
  induction ps generalizing acc with
  | nil =>
    simp [List.mapM.loop]
    rfl
  | cons a l ih => simp [List.mapM.loop, formatPetLine_buildPet, except_bind_ok, ih]

/-- C8 counterexample: on two concrete pets the actual rendering differs
from the claimed form — each segment carries the source's bullet prefix and
the separator is the literal two-character backslash-n, not a newline. -/
theorem C8_counterexample_bullet_rendering :
    format_pets_list petsEx = Except.ok
      "â€¢ Rex (ID: 1) - Unknown - Status: available - Tags: None\\nâ€¢ Max (ID: 2) - Unknown - Status: pending - Tags: None" ∧
    claimedPetsListFormat petsEx = Except.ok
      "Rex (ID: 1) - Unknown - Status: available - Tags: None\nMax (ID: 2) - Unknown - Status: pending - Tags: None" ∧
    ("â€¢ Rex (ID: 1) - Unknown - Status: available - Tags: None\\nâ€¢ Max (ID: 2) - Unknown - Status: pending - Tags: None" : String) ≠
      "Rex (ID: 1) - Unknown - Status: available - Tags: None\nMax (ID: 2) - Unknown - Status: pending - Tags: None" :=
  ⟨rfl, rfl, by decide⟩

/-- C8 (amended): `format_pets_list` renders one segment per pet of the
form `â€¢ name (ID: id) - category - Status: status - Tags: tag-names`,
segments joined by the literal two-character backslash-n sequence; a
missing category renders as `Unknown`, missing or empty tags as `None`,
tag names follow input order, and the empty list gives `No pets found.`
(byte-identical re-rendering holds since the formatter is a function). -/
theorem C8_format_pets_list_rendering (ps : List PetFields) :
    (ps ≠ [] → format_pets_list (Json.arr (ps.map buildPet)) =
      Except.ok (joinSep "\\n" (ps.map amendedPetLine))) ∧
    format_pets_list (Json.arr []) = Except.ok "No pets found." := by
  constructor
  · intro h
    simp [format_pets_list, pyTruthy, h, pyIter, formatPetLine_loop, except_bind_ok]
  · rfl

/-- Witness for the amended C8: one bare pet and one full pet. -/
theorem C8_format_pets_list_rendering_witness :
    format_pets_list (Json.arr (([⟨"Rex", 1, none, "available", none⟩,
        ⟨"Bella", 2, some "Dogs", "sold", some ["cute", "fluffy"]⟩] : List PetFields).map buildPet)) =
      Except.ok "â€¢ Rex (ID: 1) - Unknown - Status: available - Tags: None\\nâ€¢ Bella (ID: 2) - Dogs - Status: sold - Tags: cute, fluffy" :=
  (C8_format_pets_list_rendering [⟨"Rex", 1, none, "available", none⟩,
    ⟨"Bella", 2, some "Dogs", "sold", some ["cute", "fluffy"]⟩]).1 (List.cons_ne_nil _ _)
